import Mathlib

/-!
Verification of the highnheavy freight-marketplace backend.

This file is a shallow embedding of the route handlers of the repository
(src/routes/bookings.js, src/routes/quotes.js, the admin router and the
messages router) over an explicit relational state, followed by theorems
about the claims of the specification.

Modelling conventions:
- every SQL table becomes a list of rows in a DB record; a parameterized
  SELECT ... WHERE id = ? becomes List.find?, an UPDATE ... WHERE becomes a
  List.map that rewrites the matching rows, a DELETE becomes List.filter, an
  INSERT becomes an append;
- a handler becomes a function DB -> Except Err DB (or Except Err (DB x id));
  every early return before any mutation, and every rollback, is an Except
  error carrying no state, so failure leaves the database unchanged by
  construction, exactly as the transaction semantics of the source;
- uuid generation is modelled by an explicit fresh-identifier argument;
- JavaScript truthiness of request fields is modelled explicitly: a missing
  field is none, a numeric field is falsy when 0, a string field is falsy
  when empty, an id field is falsy exactly when absent;
- the notification helper createNotification of src/routes/notifications.js
  always inserts a row on the shared pool (outside the caller's
  transaction); its fire-and-forget email side channel and the json metadata
  blob are external side effects that no claim depends on and are omitted.
-/

/-- User roles, from the role column of the users table. -/
inductive Role where
  | shipper
  | carrier
  | escort
  | driver
  | admin
deriving DecidableEq, Repr

/-- Booking status values of the bookings table. -/
inductive BStatus where
  | pending_quote
  | quoted
  | booked
  | in_transit
  | delivered
  | completed
  | cancelled
deriving DecidableEq, Repr

/-- Quote status values of the quotes table. -/
inductive QStatus where
  | pending
  | accepted
  | rejected
deriving DecidableEq, Repr

/-- Notification type values used by the routes. -/
inductive NType where
  | booking
  | message
  | quote
  | quote_accepted
  | booking_update
  | payment
  | review
  | system
deriving DecidableEq, Repr

/-- A row of the users table (the columns the modelled routes read). -/
structure User where
  id : Nat
  role : Role
deriving DecidableEq, Repr

/-- A row of the bookings table. -/
structure Booking where
  id : Nat
  shipper_id : Nat
  pickup_address : String
  pickup_city : String
  pickup_state : String
  delivery_address : String
  delivery_city : String
  delivery_state : String
  cargo_type : String
  cargo_description : String
  dimensions_length_ft : Int
  dimensions_width_ft : Int
  dimensions_height_ft : Int
  weight_lbs : Int
  shipment_date : String
  flexible_dates : Bool
  requires_escort : Bool
  special_instructions : Option String
  carrier_id : Option Nat
  escort_id : Option Nat
  assigned_driver_id : Option Nat
  agreed_price : Option Int
  status : BStatus
deriving DecidableEq, Repr

/-- A row of the quotes table. -/
structure Quote where
  id : Nat
  booking_id : Nat
  provider_id : Nat
  amount : Int
  driver_id : Option Nat
  vehicle_id : Option Nat
  notes : Option String
  status : QStatus
deriving DecidableEq, Repr

/-- A row of the conversations table. -/
structure Conversation where
  id : Nat
  booking_id : Option Nat
deriving DecidableEq, Repr

/-- A row of the conversation_participants table. -/
structure ConvParticipant where
  conversation_id : Nat
  user_id : Nat
deriving DecidableEq, Repr

/-- A row of the notifications table (columns the claims can observe). -/
structure Notification where
  user_id : Nat
  ntype : NType
  title : String
  message : String
  link : String
deriving DecidableEq, Repr

/-- The relational state shared by all handlers. -/
structure DB where
  users : List User
  bookings : List Booking
  quotes : List Quote
  conversations : List Conversation
  conversation_participants : List ConvParticipant
  notifications : List Notification
deriving DecidableEq, Repr

/-- The error taxonomy of the handlers: validation is a 400 missing-field
response, notFound a 404, notFoundOrUnauthorized the deliberately conflated
404 of the booking owner checks, forbidden a 403, conflict a 400 state
precondition response, internal a 500 produced by a thrown error. -/
inductive Err where
  | validation
  | notFound
  | notFoundOrUnauthorized
  | forbidden
  | conflict
  | internal
deriving DecidableEq, Repr

/-- SELECT role FROM users WHERE id = ? (also the JOIN users u ON ... that
the quote queries perform). -/
def roleOf (db : DB) (uid : Nat) : Option Role :=
  (db.users.find? (fun u => u.id == uid)).map User.role

/-- Display name of a role, as interpolated into notification titles. -/
def roleName : Role → String
  | .shipper => "Shipper"
  | .carrier => "Carrier"
  | .escort => "Escort"
  | .driver => "Driver"
  | .admin => "Admin"

/-- JavaScript truthiness of an optional id request field: uuid strings are
truthy exactly when present. -/
def truthyId : Option Nat → Bool := Option.isSome

/-- JavaScript truthiness of an optional numeric request field. -/
def truthyAmt : Option Int → Bool
  | none => false
  | some v => v != 0

/-- JavaScript truthiness of an optional string request field. -/
def truthyStr : Option String → Bool
  | none => false
  | some s => !s.isEmpty

/-- The helper createNotification of src/routes/notifications.js: always
inserts a notification row (it runs on the pool, outside any caller
transaction). -/
def createNotification (db : DB) (uid : Nat) (t : NType)
    (title msg link : String) : DB :=
  { db with notifications :=
      db.notifications ++ [⟨uid, t, title, msg, link⟩] }

/-- PUT /api/quotes/:id/accept of src/routes/quotes.js: load the quote
joined with its provider's role and its booking, require an admin caller,
mark the quote accepted, then either bind the escort slot (escort-role
provider) or bind the carrier slot, copy driver and price, set the booking
booked and reject every other carrier-role quote of the booking. The
handler emits no notification. -/
def acceptQuote (db : DB) (actingRole : Role) (quoteId : Nat) : Except Err DB :=
  match db.quotes.find? (fun q => q.id == quoteId) with
  | none => .error .notFound
  | some q =>
    match roleOf db q.provider_id, db.bookings.find? (fun b => b.id == q.booking_id) with
    | some provider_role, some _b =>
      if actingRole = .admin then
        let quotes1 := db.quotes.map (fun r =>
          if r.id == quoteId then { r with status := .accepted } else r)
        if provider_role = .escort then
          .ok { db with
            quotes := quotes1,
            bookings := db.bookings.map (fun b =>
              if b.id == q.booking_id then { b with escort_id := some q.provider_id } else b) }
        else
          .ok { db with
            quotes := quotes1.map (fun r =>
              if r.booking_id == q.booking_id && r.id != quoteId
                  && (roleOf db r.provider_id == some .carrier) then
                { r with status := .rejected }
              else r),
            bookings := db.bookings.map (fun b =>
              if b.id == q.booking_id then
                { b with carrier_id := some q.provider_id,
                         assigned_driver_id := q.driver_id,
                         agreed_price := some q.amount,
                         status := .booked }
              else b) }
      else .error .forbidden
    | _, _ => .error .notFound

/-- The notify-all-admins loop that POST /api/quotes runs after commit:
one quote notification per admin user. -/
def notifyAdminsQuote (db : DB) (title msg link : String) : DB :=
  (db.users.filter (fun u => u.role = .admin)).foldl
    (fun acc a => createNotification acc a.id .quote title msg link) db

/-- The insert tail of POST /api/quotes: duplicate check, quote insert with
status pending, bump of the booking status from pending_quote to quoted,
then a quote notification to every admin. -/
def submitQuoteInsert (db : DB) (providerId : Nat) (role : Role) (bid : Nat)
    (amount : Int) (driver_id vehicle_id : Option Nat) (notes : Option String)
    (bstatus : BStatus) (cargo city state : String) (newQuoteId : Nat) :
    Except Err (DB × Nat) :=
  if db.quotes.any (fun q => q.booking_id == bid && q.provider_id == providerId) then
    .error .conflict
  else
    let newQ : Quote :=
      { id := newQuoteId, booking_id := bid, provider_id := providerId,
        amount := amount, driver_id := driver_id, vehicle_id := vehicle_id,
        notes := notes, status := .pending }
    let db1 : DB := { db with quotes := db.quotes ++ [newQ] }
    let db2 : DB :=
      if bstatus = .pending_quote then
        { db1 with bookings := db1.bookings.map (fun b =>
            if b.id == bid then { b with status := .quoted } else b) }
      else db1
    let db3 : DB := notifyAdminsQuote db2
      ("New Quote from " ++ roleName role)
      ("$" ++ toString amount ++ " quote received for " ++ cargo
        ++ " from " ++ city ++ ", " ++ state)
      "/dashboard/admin?section=quotes"
    .ok (db3, newQuoteId)

/-- POST /api/quotes of src/routes/quotes.js: presence check on booking_id
and amount, booking lookup, role-specific preconditions (escort: vehicle and
notes mandatory, booking must require an escort with the escort slot unset;
carrier: driver, vehicle and notes mandatory, carrier slot unset; any other
role forbidden), duplicate-quote check, insert, status bump, admin
notifications. Every failure path precedes every mutation. -/
def submitQuote (db : DB) (providerId : Nat) (role : Role)
    (booking_id : Option Nat) (amount : Option Int)
    (driver_id vehicle_id : Option Nat) (notes : Option String)
    (newQuoteId : Nat) : Except Err (DB × Nat) :=
  if !(truthyId booking_id && truthyAmt amount) then .error .validation
  else
    let bid := booking_id.getD 0
    let amt := amount.getD 0
    match db.bookings.find? (fun b => b.id == bid) with
    | none => .error .notFound
    | some b =>
      if role = .escort then
        if !(truthyId booking_id && truthyAmt amount && truthyId vehicle_id
              && truthyStr notes) then .error .validation
        else if !b.requires_escort then .error .conflict
        else if b.escort_id.isSome then .error .conflict
        else submitQuoteInsert db providerId role bid amt driver_id vehicle_id
          notes b.status b.cargo_type b.pickup_city b.pickup_state newQuoteId
      else if role = .carrier then
        if !(truthyId booking_id && truthyAmt amount && truthyId driver_id
              && truthyId vehicle_id && truthyStr notes) then .error .validation
        else if b.carrier_id.isSome then .error .conflict
        else submitQuoteInsert db providerId role bid amt driver_id vehicle_id
          notes b.status b.cargo_type b.pickup_city b.pickup_state newQuoteId
      else .error .forbidden

/-- The SET list that POST /api/admin/assign-providers applies to the
booking row: carrier slot, driver and price from the carrier quote, status
booked, and the escort slot when an escort quote resolved. -/
def assignCarrierRow (cq : Quote) (escortProvider : Option Nat) (b : Booking) : Booking :=
  { b with carrier_id := some cq.provider_id,
           assigned_driver_id := cq.driver_id,
           agreed_price := some cq.amount,
           status := .booked,
           escort_id := match escortProvider with
             | some p => some p
             | none => b.escort_id }

/-- Step 9 of POST /api/admin/assign-providers: when an escort_quote_id was
supplied, re-query it and notify its provider of the escort assignment. -/
def escortNotify (db2 : DB) (escort_quote_id : Option Nat) (cargo : String) : DB :=
  match escort_quote_id with
  | none => db2
  | some eqid =>
    match db2.quotes.find? (fun q => q.id == eqid) with
    | none => db2
    | some eq2 => createNotification db2 eq2.provider_id .quote_accepted
        "Escort Assignment Confirmed!"
        ("You have been assigned to escort " ++ cargo ++ " shipment")
        "/dashboard/escort?section=available"

/-- POST /api/admin/assign-providers of the admin router: admin only;
presence check on booking_id and carrier_quote_id; load the carrier quote
(a missing quote is a thrown error, surfaced as a 500); if an
escort_quote_id is supplied and resolves, mark that quote accepted and add
the escort binding to the booking update; apply the booking update (carrier
slot, driver, price, status booked) to the supplied booking id with no
check that the quote belongs to that booking; mark the carrier quote
accepted; reject every still-pending quote of the booking regardless of
provider role; then load the updated booking joined with its shipper (a
missing row is a thrown error that rolls everything back) and emit the
carrier, optional escort and shipper notifications. -/
def assignProviders (db : DB) (actingRole : Role)
    (booking_id carrier_quote_id escort_quote_id : Option Nat) :
    Except Err DB :=
  if actingRole = .admin then
    if !(truthyId booking_id && truthyId carrier_quote_id) then .error .validation
    else
      let bid := booking_id.getD 0
      let cqid := carrier_quote_id.getD 0
      match db.quotes.find? (fun q => q.id == cqid) with
      | none => .error .internal
      | some cq =>
        let escortProvider : Option Nat :=
          match escort_quote_id with
          | none => none
          | some eqid => (db.quotes.find? (fun q => q.id == eqid)).map Quote.provider_id
        let quotes1 : List Quote := match escort_quote_id with
          | none => db.quotes
          | some eqid =>
            if (db.quotes.find? (fun q => q.id == eqid)).isSome then
              db.quotes.map (fun r =>
                if r.id == eqid then { r with status := .accepted } else r)
            else db.quotes
        let bookings1 := db.bookings.map (fun b =>
          if b.id == bid then assignCarrierRow cq escortProvider b else b)
        let quotes2 : List Quote := quotes1.map (fun r =>
          if r.id == cqid then { r with status := .accepted } else r)
        let quotes3 : List Quote := quotes2.map (fun r =>
          if r.booking_id == bid ∧ r.status = .pending then
            { r with status := .rejected } else r)
        let db1 : DB := { db with bookings := bookings1, quotes := quotes3 }
        match db1.bookings.find? (fun b => b.id == bid) with
        | none => .error .internal
        | some bk =>
          match roleOf db1 bk.shipper_id with
          | none => .error .internal
          | some _ =>
            let db2 := createNotification db1 cq.provider_id .quote_accepted
              "Quote Accepted!"
              ("Your quote for " ++ bk.cargo_type ++ " shipment has been accepted")
              "/dashboard/carrier?section=bookings"
            let db3 := escortNotify db2 escort_quote_id bk.cargo_type
            let db4 := createNotification db3 bk.shipper_id .booking_update
              "Booking Confirmed"
              ("Your " ++ bk.cargo_type ++ " booking has been confirmed with carrier and assigned")
              "/dashboard/shipper?section=bookings"
            .ok db4
  else .error .forbidden

/-- DELETE /api/bookings/:id of src/routes/bookings.js: the row must exist
with shipper_id equal to the caller (the not-found and not-owner cases share
one 404 response), no quote may reference the booking, then the row is
deleted. -/
def deleteBooking (db : DB) (callerId bookingId : Nat) : Except Err DB :=
  match db.bookings.find? (fun b => b.id == bookingId && b.shipper_id == callerId) with
  | none => .error .notFoundOrUnauthorized
  | some _ =>
    if db.quotes.any (fun q => q.booking_id == bookingId) then .error .conflict
    else .ok { db with bookings := db.bookings.filter (fun b => !(b.id == bookingId)) }

/-- The editable columns of PUT /api/bookings/:id (exactly the SET list of
the update statement). -/
structure BookingUpdate where
  pickup_address : String
  pickup_city : String
  pickup_state : String
  delivery_address : String
  delivery_city : String
  delivery_state : String
  cargo_type : String
  cargo_description : String
  dimensions_length_ft : Int
  dimensions_width_ft : Int
  dimensions_height_ft : Int
  weight_lbs : Int
  shipment_date : String
  flexible_dates : Bool
  requires_escort : Bool
  special_instructions : Option String
deriving DecidableEq, Repr

/-- Apply the SET list of the booking update statement to one row. -/
def applyBookingUpdate (f : BookingUpdate) (b : Booking) : Booking :=
  { b with
    pickup_address := f.pickup_address, pickup_city := f.pickup_city,
    pickup_state := f.pickup_state, delivery_address := f.delivery_address,
    delivery_city := f.delivery_city, delivery_state := f.delivery_state,
    cargo_type := f.cargo_type, cargo_description := f.cargo_description,
    dimensions_length_ft := f.dimensions_length_ft,
    dimensions_width_ft := f.dimensions_width_ft,
    dimensions_height_ft := f.dimensions_height_ft,
    weight_lbs := f.weight_lbs, shipment_date := f.shipment_date,
    flexible_dates := f.flexible_dates, requires_escort := f.requires_escort,
    special_instructions := f.special_instructions }

/-- PUT /api/bookings/:id of src/routes/bookings.js: same owner and
zero-quote gates as the delete route, then the editable columns are
overwritten. -/
def updateBooking (db : DB) (callerId bookingId : Nat) (f : BookingUpdate) :
    Except Err DB :=
  match db.bookings.find? (fun b => b.id == bookingId && b.shipper_id == callerId) with
  | none => .error .notFoundOrUnauthorized
  | some _ =>
    if db.quotes.any (fun q => q.booking_id == bookingId) then .error .conflict
    else .ok { db with bookings := db.bookings.map (fun b =>
      if b.id == bookingId then applyBookingUpdate f b else b) }

/-- The allowed-status whitelist of PATCH /api/bookings/:id/status. -/
def allowedTarget : BStatus → Bool
  | .in_transit => true
  | .delivered => true
  | .completed => true
  | .cancelled => true
  | .booked => true
  | _ => false

/-- PATCH /api/bookings/:id/status of src/routes/bookings.js: the target
status must be in the whitelist; the booking must exist; the caller must be
an admin or the booking's assigned carrier, escort or driver (re-derived
from the booking row); then the status column is overwritten with the
target, with no reference to the current status. -/
def setStatus (db : DB) (userId : Nat) (userRole : Role) (bookingId : Nat)
    (status : BStatus) : Except Err DB :=
  if !allowedTarget status then .error .validation
  else
    match db.bookings.find? (fun b => b.id == bookingId) with
    | none => .error .notFound
    | some b =>
      if userRole = .admin ∨ (userRole = .carrier ∧ b.carrier_id = some userId)
          ∨ (userRole = .escort ∧ b.escort_id = some userId)
          ∨ (userRole = .driver ∧ b.assigned_driver_id = some userId) then
        .ok { db with bookings := db.bookings.map (fun b' =>
          if b'.id == bookingId then { b' with status := status } else b') }
      else .error .forbidden

/-- The insert step of POST /api/messages/conversation: one conversation
row under the fresh id plus its two participant rows. -/
def convInsert (db : DB) (userId participantId newId : Nat)
    (bookingId : Option Nat) : DB :=
  { db with
    conversations := db.conversations ++ [⟨newId, bookingId⟩],
    conversation_participants := db.conversation_participants
      ++ [⟨newId, userId⟩, ⟨newId, participantId⟩] }

/-- Does the conversation row with id cid have user u among its participant
rows (the join of the lookup query of POST /api/messages/conversation). -/
def hasParticipant (db : DB) (cid u : Nat) : Bool :=
  db.conversation_participants.any (fun cp => cp.conversation_id == cid && cp.user_id == u)

/-- The booking existence check of POST /api/messages/conversation: when a
bookingId is supplied it must reference an existing booking row. -/
def bookingOkCheck (db : DB) (bookingId : Option Nat) : Bool :=
  match bookingId with
  | none => true
  | some bk => (db.bookings.find? (fun b => b.id == bk)).isSome

/-- POST /api/messages/conversation of the messages router, after the
admin-sentinel resolution: verify the booking exists when one is supplied,
look for an existing conversation joining both users with the same
booking_id (null booking_id is its own key), return it when found,
otherwise insert a conversation row and two participant rows under the
fresh identifier. -/
def getOrCreateConversation (db : DB) (userId participantId : Nat)
    (bookingId : Option Nat) (newId : Nat) : Except Err (DB × Nat) :=
  if !bookingOkCheck db bookingId then .error .notFound
  else
    match db.conversations.find? (fun c =>
        c.booking_id == bookingId && hasParticipant db c.id userId
          && hasParticipant db c.id participantId) with
    | some c => .ok (db, c.id)
    | none =>
      .ok (convInsert db userId participantId newId bookingId, newId)

/-- A template booking row used by the concrete scenarios below. -/
def booking0 : Booking :=
  { id := 10, shipper_id := 3,
    pickup_address := "1 A St", pickup_city := "Austin", pickup_state := "TX",
    delivery_address := "2 B St", delivery_city := "Dallas", delivery_state := "TX",
    cargo_type := "Excavator", cargo_description := "40t excavator",
    dimensions_length_ft := 40, dimensions_width_ft := 10,
    dimensions_height_ft := 12, weight_lbs := 80000,
    shipment_date := "2026-01-10", flexible_dates := false,
    requires_escort := true, special_instructions := none,
    carrier_id := none, escort_id := none, assigned_driver_id := none,
    agreed_price := none, status := .quoted }

/-- A template quote row used by the concrete scenarios below. -/
def quote0 : Quote :=
  { id := 20, booking_id := 10, provider_id := 1, amount := 5000,
    driver_id := some 6, vehicle_id := some 7, notes := some "careful",
    status := .pending }

/-- The user table shared by the concrete scenarios: one admin, two
carriers, a shipper, two escorts and a driver. -/
def usersMain : List User :=
  [⟨0, .admin⟩, ⟨1, .carrier⟩, ⟨2, .carrier⟩, ⟨3, .shipper⟩,
   ⟨4, .escort⟩, ⟨5, .escort⟩, ⟨6, .driver⟩]

/-- Main concrete scenario: booking 10 is quoted and unassigned and holds a
pending carrier quote from each carrier and a pending escort quote; booking
11 already has carrier 1 bound and carries a second pending carrier quote;
booking 12 is a fresh unrelated booking of the same shipper. -/
def dbMain : DB :=
  { users := usersMain,
    bookings :=
      [booking0,
       { booking0 with id := 11, carrier_id := some 1, status := .booked },
       { booking0 with id := 12, status := .pending_quote }],
    quotes :=
      [quote0,
       { quote0 with id := 21, provider_id := 2, amount := 6000 },
       { quote0 with id := 22, provider_id := 4, amount := 700, driver_id := none },
       { quote0 with id := 23, booking_id := 11, provider_id := 2, amount := 5500 }],
    conversations := [],
    conversation_participants := [],
    notifications := [] }

/-- The carrier quote row 23 of dbMain (a pending carrier-role quote on
booking 11, whose carrier slot is already filled). -/
def quote23 : Quote :=
  { quote0 with id := 23, booking_id := 11, provider_id := 2, amount := 5500 }
/-- The booking row 11 of dbMain (carrier slot already filled by carrier 1). -/
def booking11 : Booking :=
  { booking0 with id := 11, carrier_id := some 1, status := .booked }
/-- A one-booking database whose only booking is already completed, with no
quotes, used to exercise the status route on a terminal state. -/
def dbCompleted : DB :=
  { dbMain with bookings := [{ booking0 with status := .completed }], quotes := [] }
/-- A concrete update payload for the witness scenarios. -/
def bookingUpdate0 : BookingUpdate :=
  { pickup_address := "9 C St", pickup_city := "Waco", pickup_state := "TX",
    delivery_address := "2 B St", delivery_city := "Dallas", delivery_state := "TX",
    cargo_type := "Crane", cargo_description := "mobile crane",
    dimensions_length_ft := 30, dimensions_width_ft := 9,
    dimensions_height_ft := 11, weight_lbs := 60000,
    shipment_date := "2026-02-01", flexible_dates := true,
    requires_escort := false, special_instructions := none }
/-- The state of dbMain after creating the general conversation 40 between
shipper 3 and carrier 1. -/
def dbConv1 : DB :=
  { dbMain with
    conversations := [⟨40, none⟩],
    conversation_participants := [⟨40, 3⟩, ⟨40, 1⟩] }
/-- The state of dbConv1 after additionally creating conversation 41 for
the same pair keyed by booking 10. -/
def dbConv2 : DB :=
  { dbMain with
    conversations := [⟨40, none⟩, ⟨41, some 10⟩],
    conversation_participants := [⟨40, 3⟩, ⟨40, 1⟩, ⟨41, 3⟩, ⟨41, 1⟩] }

/-- List.find? commutes with a rewrite function that does not change the
tested fields (the shape of every UPDATE ... WHERE id = ? of the model). -/
theorem find?_map_of_pred_comm {α : Type} (f : α → α) (p : α → Bool)
    (hf : ∀ a, p (f a) = p a) (l : List α) :
    (l.map f).find? p = (l.find? p).map f := by
  induction l with
  | nil => rfl
  | cons a t ih =>
    simp only [List.map_cons, List.find?_cons]
    rw [hf a]
    cases h : p a <;> simp [ih]

/-- Closed form of the carrier (non-escort) branch of acceptQuote: the
caller is an admin, the quote, its provider's role and its booking resolve,
and the provider is not escort-role; then the handler succeeds, marks the
quote accepted, rejects the other carrier-role quotes of the booking and
binds the carrier slot of the booking. -/
theorem acceptQuote_carrier_eq (db : DB) (quoteId : Nat) (q : Quote) (ρ : Role) (b : Booking)
    (hq : db.quotes.find? (fun r => r.id == quoteId) = some q)
    (hrole : roleOf db q.provider_id = some ρ)
    (hρ : ρ ≠ .escort)
    (hb : db.bookings.find? (fun b' => b'.id == q.booking_id) = some b) :
    acceptQuote db .admin quoteId = .ok { db with
      quotes := (db.quotes.map (fun r =>
          if r.id == quoteId then { r with status := QStatus.accepted } else r)).map (fun r =>
          if r.booking_id == q.booking_id && r.id != quoteId
              && (roleOf db r.provider_id == some .carrier) then
            { r with status := QStatus.rejected } else r),
      bookings := db.bookings.map (fun b' =>
        if b'.id == q.booking_id then
          { b' with carrier_id := some q.provider_id,
                    assigned_driver_id := q.driver_id,
                    agreed_price := some q.amount,
                    status := BStatus.booked } else b') } := by
  unfold acceptQuote
  simp only [hq]
  simp only [hrole, hb]
  simp [hρ]

/-- Closed form of the escort branch of acceptQuote: admin caller, resolved
escort-role quote; the handler succeeds, marks the quote accepted and binds
only the escort slot of the booking. -/
theorem acceptQuote_escort_eq (db : DB) (quoteId : Nat) (q : Quote) (b : Booking)
    (hq : db.quotes.find? (fun r => r.id == quoteId) = some q)
    (hrole : roleOf db q.provider_id = some .escort)
    (hb : db.bookings.find? (fun b' => b'.id == q.booking_id) = some b) :
    acceptQuote db .admin quoteId = .ok { db with
      quotes := db.quotes.map (fun r =>
        if r.id == quoteId then { r with status := QStatus.accepted } else r),
      bookings := db.bookings.map (fun b' =>
        if b'.id == q.booking_id then
          { b' with escort_id := some q.provider_id } else b') } := by
  unfold acceptQuote
  simp only [hq]
  simp only [hrole, hb]
  simp



/-- C1 counterexample: booking 11 of dbMain already has carrier 1 in its
carrier slot, quote 23 is a pending carrier-role quote on it, and admin
acceptance of quote 23 nevertheless succeeds, marks it accepted and
overwrites the slot with carrier 2: acceptQuote checks no assignment slot
before binding a provider. -/
theorem acceptance_slot_unchecked_cex :
    ((dbMain.bookings.find? (fun b => b.id == 11)).map Booking.carrier_id = some (some 1))
    ∧ (roleOf dbMain 2 = some .carrier)
    ∧ ((dbMain.quotes.find? (fun q => q.id == 23)).map Quote.status = some .pending)
    ∧ (acceptQuote dbMain .admin 23).isOk = true
    ∧ ((acceptQuote dbMain .admin 23).toOption.map
        (fun db => (db.bookings.find? (fun b => b.id == 11)).map Booking.carrier_id))
        = some (some (some 2))
    ∧ ((acceptQuote dbMain .admin 23).toOption.map
        (fun db => (db.quotes.find? (fun q => q.id == 23)).map Quote.status))
        = some (some .accepted) := by decide

/-- C1 (amended): neither acceptance path checks the assignment slot: for a
booking whose carrier slot is already filled by some provider c0, admin
acceptance of any resolved carrier-role quote on it still succeeds and
rebinds the slot to that quote's provider, overwriting the first
assignment. (Only quote submission checks the slots.) -/
theorem acceptance_overwrites_filled_slot_c1 (db : DB) (quoteId : Nat) (q : Quote)
    (b : Booking) (c0 : Nat)
    (hq : db.quotes.find? (fun r => r.id == quoteId) = some q)
    (hrole : roleOf db q.provider_id = some .carrier)
    (hb : db.bookings.find? (fun b' => b'.id == q.booking_id) = some b)
    (hslot : b.carrier_id = some c0) :
    ∃ db', acceptQuote db .admin quoteId = .ok db'
      ∧ { b with carrier_id := some q.provider_id,
                 assigned_driver_id := q.driver_id,
                 agreed_price := some q.amount,
                 status := BStatus.booked } ∈ db'.bookings := by
  refine ⟨_, acceptQuote_carrier_eq db quoteId q .carrier b hq hrole (by decide) hb, ?_⟩
  have hbmem : b ∈ db.bookings := List.mem_of_find?_eq_some hb
  have hpred : (b.id == q.booking_id) = true := by
    simpa using List.find?_some hb
  have h2 := List.mem_map_of_mem (fun b' : Booking =>
    if b'.id == q.booking_id then
      { b' with carrier_id := some q.provider_id,
                assigned_driver_id := q.driver_id,
                agreed_price := some q.amount,
                status := BStatus.booked } else b') hbmem
  simpa [hpred] using h2

/-- C1 witness: the amended overwrite theorem applied to the concrete
scenario of the counterexample (quote 23 against the already-matched
booking 11). -/
theorem acceptance_overwrites_filled_slot_c1_witness :
    ∃ db', acceptQuote dbMain .admin 23 = .ok db'
      ∧ { booking11 with
          carrier_id := some quote23.provider_id,
          assigned_driver_id := quote23.driver_id,
          agreed_price := some quote23.amount,
          status := BStatus.booked } ∈ db'.bookings :=
  acceptance_overwrites_filled_slot_c1 dbMain 23 quote23 booking11 1
    (by decide) (by decide) (by decide) (by decide)

/-- C2: accepting a resolved pending carrier-role quote q on booking b via
acceptQuote binds carrier, driver and price on b, sets b booked, marks q
accepted, rejects every other pending carrier-role quote of the booking and
leaves every escort-role quote unchanged (whole row, hence its status). -/
theorem accept_carrier_quote_effects_c2 (db : DB) (quoteId : Nat) (q : Quote) (b : Booking)
    (hnd : (db.quotes.map Quote.id).Nodup)
    (hq : db.quotes.find? (fun r => r.id == quoteId) = some q)
    (hrole : roleOf db q.provider_id = some .carrier)
    (hb : db.bookings.find? (fun b' => b'.id == q.booking_id) = some b)
    (hpend : q.status = .pending) :
    ∃ db', acceptQuote db .admin quoteId = .ok db'
      ∧ ({ b with
            carrier_id := some q.provider_id,
            assigned_driver_id := q.driver_id,
            agreed_price := some q.amount,
            status := BStatus.booked } ∈ db'.bookings)
      ∧ ({ q with status := QStatus.accepted } ∈ db'.quotes)
      ∧ (∀ r ∈ db.quotes, r ≠ q → roleOf db r.provider_id = some .carrier →
          r.booking_id = q.booking_id → r.status = .pending →
          { r with status := QStatus.rejected } ∈ db'.quotes)
      ∧ (∀ r ∈ db.quotes, roleOf db r.provider_id = some .escort → r ∈ db'.quotes) := by
  have hqid : q.id = quoteId := by simpa using List.find?_some hq
  have hqmem : q ∈ db.quotes := List.mem_of_find?_eq_some hq
  have hbmem : b ∈ db.bookings := List.mem_of_find?_eq_some hb
  have hbpred : (b.id == q.booking_id) = true := by simpa using List.find?_some hb
  refine ⟨_, acceptQuote_carrier_eq db quoteId q .carrier b hq hrole (by decide) hb,
    ?_, ?_, ?_, ?_⟩
  · have h2 := List.mem_map_of_mem (fun b' : Booking =>
      if b'.id == q.booking_id then
        { b' with carrier_id := some q.provider_id, assigned_driver_id := q.driver_id,
                  agreed_price := some q.amount, status := BStatus.booked } else b') hbmem
    simpa [hbpred] using h2
  · have h1 := List.mem_map_of_mem (fun r : Quote =>
      if r.id == quoteId then { r with status := QStatus.accepted } else r) hqmem
    have h2 := List.mem_map_of_mem (fun r : Quote =>
      if r.booking_id == q.booking_id && r.id != quoteId
          && (roleOf db r.provider_id == some .carrier) then
        { r with status := QStatus.rejected } else r) h1
    simpa [hqid] using h2
  · intro r hr hrne hrrole hrbid hrpend
    have hrid : r.id ≠ quoteId := by
      intro h
      exact hrne (List.inj_on_of_nodup_map hnd hr hqmem (h.trans hqid.symm))
    have h1 := List.mem_map_of_mem (fun r : Quote =>
      if r.id == quoteId then { r with status := QStatus.accepted } else r) hr
    have h2 := List.mem_map_of_mem (fun r : Quote =>
      if r.booking_id == q.booking_id && r.id != quoteId
          && (roleOf db r.provider_id == some .carrier) then
        { r with status := QStatus.rejected } else r) h1
    simpa [hrid, hrbid, hrrole] using h2
  · intro r hr hesc
    have hrid : r.id ≠ quoteId := by
      intro h
      have hrq : r = q := List.inj_on_of_nodup_map hnd hr hqmem (h.trans hqid.symm)
      rw [hrq, hrole] at hesc
      exact absurd (Option.some.inj hesc) (by decide)
    have h1 := List.mem_map_of_mem (fun r : Quote =>
      if r.id == quoteId then { r with status := QStatus.accepted } else r) hr
    have h2 := List.mem_map_of_mem (fun r : Quote =>
      if r.booking_id == q.booking_id && r.id != quoteId
          && (roleOf db r.provider_id == some .carrier) then
        { r with status := QStatus.rejected } else r) h1
    simpa [hrid, hesc] using h2

/-- C2 witness: the carrier-acceptance theorem at the concrete scenario:
accepting quote 20 on booking 10 binds carrier 1, rejects the competing
pending carrier quote 21 and leaves the escort quote 22 unchanged. -/
theorem accept_carrier_quote_effects_c2_witness :
    ∃ db', acceptQuote dbMain .admin 20 = .ok db'
      ∧ ({ booking0 with
            carrier_id := some quote0.provider_id,
            assigned_driver_id := quote0.driver_id,
            agreed_price := some quote0.amount,
            status := BStatus.booked } ∈ db'.bookings)
      ∧ ({ quote0 with status := QStatus.accepted } ∈ db'.quotes)
      ∧ ({ quote0 with
            id := 21, provider_id := 2, amount := 6000,
            status := QStatus.rejected } ∈ db'.quotes)
      ∧ ({ quote0 with id := 22, provider_id := 4, amount := 700, driver_id := none }
          ∈ db'.quotes) := by
  obtain ⟨db', heq, hbk, hacc, hrej, hesc⟩ :=
    accept_carrier_quote_effects_c2 dbMain 20 quote0 booking0
      (by decide) (by decide) (by decide) (by decide) (by decide)
  exact ⟨db', heq, hbk, hacc,
    hrej { quote0 with id := 21, provider_id := 2, amount := 6000 }
      (by decide) (by decide) (by decide) (by decide) (by decide),
    hesc { quote0 with id := 22, provider_id := 4, amount := 700, driver_id := none }
      (by decide) (by decide)⟩

/-- C8: accepting a resolved escort-role quote via acceptQuote rewrites the
state to exactly: the quote marked accepted and the booking's escort slot
bound; the updated booking row keeps its status, carrier slot, assigned
driver and agreed price (the record update touches escort_id only), and
every other quote row is unchanged, so no other quote's status changes. -/
theorem accept_escort_quote_frame_c8 (db : DB) (quoteId : Nat) (q : Quote) (b : Booking)
    (hq : db.quotes.find? (fun r => r.id == quoteId) = some q)
    (hrole : roleOf db q.provider_id = some .escort)
    (hb : db.bookings.find? (fun b' => b'.id == q.booking_id) = some b) :
    ∃ db', acceptQuote db .admin quoteId = .ok db'
      ∧ db'.bookings = db.bookings.map (fun b' =>
          if b'.id == q.booking_id then { b' with escort_id := some q.provider_id } else b')
      ∧ db'.quotes = db.quotes.map (fun r =>
          if r.id == quoteId then { r with status := QStatus.accepted } else r)
      ∧ ({ b with escort_id := some q.provider_id } ∈ db'.bookings)
      ∧ (∀ r ∈ db.quotes, r.id ≠ quoteId → r ∈ db'.quotes)
      ∧ db'.notifications = db.notifications := by
  have hbmem : b ∈ db.bookings := List.mem_of_find?_eq_some hb
  have hbpred : (b.id == q.booking_id) = true := by simpa using List.find?_some hb
  refine ⟨_, acceptQuote_escort_eq db quoteId q b hq hrole hb, rfl, rfl, ?_, ?_, rfl⟩
  · have h2 := List.mem_map_of_mem (fun b' : Booking =>
      if b'.id == q.booking_id then { b' with escort_id := some q.provider_id } else b') hbmem
    simpa [hbpred] using h2
  · intro r hr hrid
    have h1 := List.mem_map_of_mem (fun r : Quote =>
      if r.id == quoteId then { r with status := QStatus.accepted } else r) hr
    simpa [hrid] using h1

/-- C8 witness: the escort-acceptance frame theorem at the concrete
scenario: accepting escort quote 22 on booking 10 binds escort 4 only and
leaves the carrier quote 20 untouched. -/
theorem accept_escort_quote_frame_c8_witness :
    ∃ db', acceptQuote dbMain .admin 22 = .ok db'
      ∧ db'.bookings = dbMain.bookings.map (fun b' =>
          if b'.id == 10 then { b' with escort_id := some 4 } else b')
      ∧ db'.quotes = dbMain.quotes.map (fun r =>
          if r.id == 22 then { r with status := QStatus.accepted } else r)
      ∧ ({ booking0 with escort_id := some 4 } ∈ db'.bookings)
      ∧ (quote0 ∈ db'.quotes)
      ∧ db'.notifications = dbMain.notifications := by
  obtain ⟨db', heq, hbks, hqs, hbk, hfr, hnotif⟩ :=
    accept_escort_quote_frame_c8 dbMain 22
      { quote0 with id := 22, provider_id := 4, amount := 700, driver_id := none }
      booking0 (by decide) (by decide) (by decide)
  exact ⟨db', heq, hbks, hqs, hbk, hfr quote0 (by decide) (by decide), hnotif⟩

/-- A notification row survives any later createNotification append. -/
theorem mem_notif_createNotification {db : DB} {n : Notification}
    (h : n ∈ db.notifications) (u : Nat) (t : NType) (a b c : String) :
    n ∈ (createNotification db u t a b c).notifications := by
  simp only [createNotification, List.mem_append]
  exact Or.inl h

/-- The row appended by createNotification is in the result. -/
theorem self_mem_createNotification (db : DB) (u : Nat) (t : NType) (a b c : String) :
    (⟨u, t, a, b, c⟩ : Notification) ∈ (createNotification db u t a b c).notifications := by
  simp [createNotification]

/-- A notification row survives the optional escort notification step. -/
theorem mem_notif_escortNotify {db : DB} {n : Notification}
    (h : n ∈ db.notifications) (eqo : Option Nat) (cargo : String) :
    n ∈ (escortNotify db eqo cargo).notifications := by
  cases eqo with
  | none => exact h
  | some eqid =>
    unfold escortNotify
    cases hf : db.quotes.find? (fun q => q.id == eqid) with
    | none => simp only [hf]; exact h
    | some eq2 => simp only [hf]; exact mem_notif_createNotification h _ _ _ _ _

/-- C4 counterexample: the admin acceptance of carrier quote 20 through
acceptQuote succeeds, yet the notifications table stays empty — the carrier
receives no quote_accepted notification from this path. -/
theorem accept_quote_no_notification_cex :
    (roleOf dbMain 1 = some .carrier)
    ∧ (acceptQuote dbMain .admin 20).isOk = true
    ∧ ((acceptQuote dbMain .admin 20).toOption.map DB.notifications) = some []
    ∧ dbMain.notifications = [] := by decide

/-- C4 (amended): acceptQuote emits no notification at all — on every
success its notifications table is returned unchanged; the quote_accepted
notification to the quoting carrier is emitted only on the assignProviders
path, which always appends one addressed to the carrier quote's provider. -/
theorem acceptance_notifications_c4 :
    (∀ (db : DB) (role : Role) (quoteId : Nat) (db' : DB),
        acceptQuote db role quoteId = .ok db' → db'.notifications = db.notifications)
    ∧ (∀ (db : DB) (bid cqid : Nat) (eqo : Option Nat) (cq : Quote) (db' : DB),
        db.quotes.find? (fun r => r.id == cqid) = some cq →
        assignProviders db .admin (some bid) (some cqid) eqo = .ok db' →
        ∃ n ∈ db'.notifications, n.user_id = cq.provider_id ∧ n.ntype = .quote_accepted) := by
  constructor
  · intro db role quoteId db' h
    unfold acceptQuote at h
    repeat' split at h
    all_goals cases h
    all_goals rfl
  · intro db bid cqid eqo cq db' hcq h
    unfold assignProviders at h
    rw [if_pos rfl] at h
    rw [if_neg (by simp [truthyId])] at h
    simp only [Option.getD_some, hcq] at h
    repeat' split at h
    all_goals cases h
    all_goals exact ⟨_, mem_notif_createNotification (mem_notif_escortNotify
      (self_mem_createNotification _ _ _ _ _ _) _ _) _ _ _ _ _, rfl, rfl⟩

/-- assignCarrierRow keeps the row identifier. -/
theorem assignCarrierRow_id (cq : Quote) (ep : Option Nat) (b : Booking) :
    (assignCarrierRow cq ep b).id = b.id := rfl

/-- Closed form of the carrier-only call of assignProviders (no
escort_quote_id): with an admin caller, a resolved carrier quote, an
existing target booking and an existing shipper user, the handler succeeds,
binds the carrier data onto the target booking row, marks the carrier quote
accepted, rejects every still-pending quote of the target booking and
appends the carrier and shipper notifications. -/
theorem assignProviders_none_eq (db : DB) (bid cqid : Nat) (cq : Quote) (b : Booking)
    (sr : Role)
    (hcq : db.quotes.find? (fun q => q.id == cqid) = some cq)
    (hb : db.bookings.find? (fun b' => b'.id == bid) = some b)
    (hship : roleOf db b.shipper_id = some sr) :
    assignProviders db .admin (some bid) (some cqid) none = .ok
      (createNotification (createNotification
        { db with
          bookings := db.bookings.map (fun b' =>
            if b'.id == bid then assignCarrierRow cq none b' else b'),
          quotes := ((db.quotes.map (fun r =>
              if r.id == cqid then { r with status := QStatus.accepted } else r)).map (fun r =>
              if r.booking_id == bid ∧ r.status = QStatus.pending then
                { r with status := QStatus.rejected } else r)) }
        cq.provider_id .quote_accepted "Quote Accepted!"
        ("Your quote for " ++ b.cargo_type ++ " shipment has been accepted")
        "/dashboard/carrier?section=bookings")
        b.shipper_id .booking_update "Booking Confirmed"
        ("Your " ++ b.cargo_type ++ " booking has been confirmed with carrier and assigned")
        "/dashboard/shipper?section=bookings") := by
  have hpc : ∀ a : Booking,
      ((fun b' : Booking => b'.id == bid) (if a.id == bid then assignCarrierRow cq none a else a))
        = ((fun b' : Booking => b'.id == bid) a) := by
    intro a
    by_cases h : (a.id == bid) = true <;> simp [h, assignCarrierRow_id]
  unfold assignProviders
  rw [if_pos rfl]
  rw [if_neg (by simp [truthyId])]
  simp only [Option.getD_some, hcq]
  rw [find?_map_of_pred_comm (fun a => if a.id == bid then assignCarrierRow cq none a else a)
    (fun b' : Booking => b'.id == bid) hpc db.bookings]
  rw [hb]
  simp only [Option.map_some']
  have hbp : (b.id == bid) = true := by simpa using List.find?_some hb
  rw [if_pos hbp]
  have hship2 : roleOf
      { db with
        bookings := db.bookings.map (fun b' =>
          if b'.id == bid then assignCarrierRow cq none b' else b'),
        quotes := ((db.quotes.map (fun r =>
            if r.id == cqid then { r with status := QStatus.accepted } else r)).map (fun r =>
            if r.booking_id == bid ∧ r.status = QStatus.pending then
              { r with status := QStatus.rejected } else r)) }
      (assignCarrierRow cq none b).shipper_id = some sr := hship
  rw [hship2]
  rfl

/-- C3 counterexample: quote 22 of dbMain is a pending escort-role quote on
booking 10; the assignProviders carrier-only call for booking 10 marks it
rejected, while acceptQuote on the same carrier quote 20 leaves it pending:
the two rejection sets differ, so assignProviders does not exhibit the same
rejection-of-competitors behavior as acceptQuote. -/
theorem assign_vs_accept_rejection_cex :
    (roleOf dbMain 4 = some .escort)
    ∧ ((dbMain.quotes.find? (fun q => q.id == 22)).map Quote.status = some .pending)
    ∧ ((dbMain.quotes.find? (fun q => q.id == 22)).map Quote.booking_id = some 10)
    ∧ ((assignProviders dbMain .admin (some 10) (some 20) none).toOption.map
        (fun db => (db.quotes.find? (fun q => q.id == 22)).map Quote.status))
        = some (some .rejected)
    ∧ ((acceptQuote dbMain .admin 20).toOption.map
        (fun db => (db.quotes.find? (fun q => q.id == 22)).map Quote.status))
        = some (some .pending) := by decide

/-- C3 (amended): the carrier-only assignProviders call performs the same
carrier binding as acceptQuote, but its rejection set is every quote of the
supplied booking that is still pending regardless of provider role — in
particular a pending escort-role quote is rejected even though no escort is
being assigned, which acceptQuote would leave untouched. -/
theorem assign_providers_rejects_pending_c3 (db : DB) (bid cqid : Nat) (cq : Quote)
    (b : Booking) (sr : Role) (r : Quote)
    (hcq : db.quotes.find? (fun q => q.id == cqid) = some cq)
    (hb : db.bookings.find? (fun b' => b'.id == bid) = some b)
    (hship : roleOf db b.shipper_id = some sr)
    (hr : r ∈ db.quotes) (hrb : r.booking_id = bid) (hrid : r.id ≠ cqid)
    (hrp : r.status = .pending) :
    ∃ db', assignProviders db .admin (some bid) (some cqid) none = .ok db'
      ∧ { r with status := QStatus.rejected } ∈ db'.quotes := by
  refine ⟨_, assignProviders_none_eq db bid cqid cq b sr hcq hb hship, ?_⟩
  have h1 := List.mem_map_of_mem (fun r : Quote =>
    if r.id == cqid then { r with status := QStatus.accepted } else r) hr
  have e1 : (fun r : Quote =>
      if r.id == cqid then { r with status := QStatus.accepted } else r) r = r := by
    simp [hrid]
  rw [e1] at h1
  have h2 := List.mem_map_of_mem (fun r : Quote =>
    if r.booking_id == bid ∧ r.status = QStatus.pending then
      { r with status := QStatus.rejected } else r) h1
  have e2 : (fun r : Quote =>
      if r.booking_id == bid ∧ r.status = QStatus.pending then
        { r with status := QStatus.rejected } else r) r
      = { r with status := QStatus.rejected } := by
    simp [hrb, hrp]
  rw [e2] at h2
  exact h2

/-- C3 witness: the amended theorem at the counterexample scenario — the
pending escort-role quote 22 of booking 10 ends up rejected by the
carrier-only assignProviders call. -/
theorem assign_providers_rejects_pending_c3_witness :
    ∃ db', assignProviders dbMain .admin (some 10) (some 20) none = .ok db'
      ∧ { quote0 with
          id := 22, provider_id := 4, amount := 700, driver_id := none,
          status := QStatus.rejected } ∈ db'.quotes :=
  assign_providers_rejects_pending_c3 dbMain 10 20 quote0 booking0 .shipper
    { quote0 with id := 22, provider_id := 4, amount := 700, driver_id := none }
    (by decide) (by decide) (by decide) (by decide) (by decide) (by decide) (by decide)

/-- C10: assignProviders never checks that the carrier quote belongs to the
supplied booking: for any resolved carrier quote and any existing booking
(with an existing shipper user), without any hypothesis tying the quote's
booking_id to the booking, the call succeeds and writes the quote's
provider, driver and amount onto the supplied booking and sets it booked. -/
theorem assign_providers_cross_booking_c10 (db : DB) (bid cqid : Nat) (cq : Quote)
    (b : Booking) (sr : Role)
    (hcq : db.quotes.find? (fun q => q.id == cqid) = some cq)
    (hb : db.bookings.find? (fun b' => b'.id == bid) = some b)
    (hship : roleOf db b.shipper_id = some sr) :
    ∃ db', assignProviders db .admin (some bid) (some cqid) none = .ok db'
      ∧ assignCarrierRow cq none b ∈ db'.bookings := by
  refine ⟨_, assignProviders_none_eq db bid cqid cq b sr hcq hb hship, ?_⟩
  have hbmem : b ∈ db.bookings := List.mem_of_find?_eq_some hb
  have hbp : (b.id == bid) = true := by simpa using List.find?_some hb
  have h1 := List.mem_map_of_mem (fun b' : Booking =>
    if b'.id == bid then assignCarrierRow cq none b' else b') hbmem
  have e : (fun b' : Booking =>
      if b'.id == bid then assignCarrierRow cq none b' else b') b
      = assignCarrierRow cq none b := by
    simp [hbp]
  rw [e] at h1
  exact h1

/-- C10 witness: quote 20 belongs to booking 10, yet assignProviders applied
to booking 12 succeeds and books booking 12 with quote 20's carrier, driver
and price. -/
theorem assign_providers_cross_booking_c10_witness :
    (quote0.booking_id = 10 ∧ (10 : Nat) ≠ 12)
    ∧ ∃ db', assignProviders dbMain .admin (some 12) (some 20) none = .ok db'
      ∧ assignCarrierRow quote0 none { booking0 with id := 12, status := .pending_quote }
          ∈ db'.bookings :=
  ⟨by decide, assign_providers_cross_booking_c10 dbMain 12 20 quote0
    { booking0 with id := 12, status := .pending_quote } .shipper
    (by decide) (by decide) (by decide)⟩

/-- C4 witness: at the concrete scenario, acceptQuote leaves the empty
notifications table empty, while the assignProviders call for the same
carrier quote does append a quote_accepted notification for carrier 1. -/
theorem acceptance_notifications_c4_witness :
    (∃ d, acceptQuote dbMain .admin 20 = .ok d ∧ d.notifications = dbMain.notifications)
    ∧ (∃ d, assignProviders dbMain .admin (some 10) (some 20) none = .ok d
        ∧ ∃ n ∈ d.notifications, n.user_id = quote0.provider_id
            ∧ n.ntype = NType.quote_accepted) := by
  constructor
  · cases hv : acceptQuote dbMain .admin 20 with
    | ok d => exact ⟨d, rfl, acceptance_notifications_c4.1 dbMain .admin 20 d hv⟩
    | error e =>
      have hok : (acceptQuote dbMain .admin 20).isOk = true := by decide
      rw [hv] at hok
      simp [Except.isOk, Except.toBool] at hok
  · cases hv : assignProviders dbMain .admin (some 10) (some 20) none with
    | ok d =>
      exact ⟨d, rfl, acceptance_notifications_c4.2 dbMain 10 20 none quote0 d (by decide) hv⟩
    | error e =>
      have hok : (assignProviders dbMain .admin (some 10) (some 20) none).isOk = true := by
        decide
      rw [hv] at hok
      simp [Except.isOk, Except.toBool] at hok


/-- C5 counterexample: booking 10 of dbCompleted is in the terminal status
completed, yet the admin status route accepts the target booked and moves
the booking backwards along the chain, out of the terminal state. -/
theorem status_moves_backwards_cex :
    ((dbCompleted.bookings.find? (fun b => b.id == 10)).map Booking.status
      = some .completed)
    ∧ ((setStatus dbCompleted 0 .admin 10 .booked).toOption.map
        (fun db => (db.bookings.find? (fun b => b.id == 10)).map Booking.status))
        = some (some .booked) := by decide

/-- C5 (amended): the status route constrains only the target value (it
must be one of in_transit, delivered, completed, cancelled, booked) and the
caller's authorization; it never reads the current status, so an authorized
caller can move a booking between any two statuses, backwards along the
chain and out of terminal states included. -/
theorem set_status_unconstrained_c5 (db : DB) (uid bookingId : Nat) (target : BStatus)
    (b : Booking)
    (hb : db.bookings.find? (fun b' => b'.id == bookingId) = some b)
    (ht : allowedTarget target = true) :
    setStatus db uid .admin bookingId target = .ok { db with
      bookings := db.bookings.map (fun b' =>
        if b'.id == bookingId then { b' with status := target } else b') } := by
  unfold setStatus
  simp [ht, hb]

/-- C5 witness: the amended theorem applied at a completed booking with
target booked — a backward transition out of a terminal state. -/
theorem set_status_unconstrained_c5_witness :
    setStatus dbCompleted 0 .admin 10 .booked = .ok { dbCompleted with
      bookings := dbCompleted.bookings.map (fun b' =>
        if b'.id == 10 then { b' with status := BStatus.booked } else b') } :=
  set_status_unconstrained_c5 dbCompleted 0 10 .booked
    { booking0 with status := .completed } (by decide) (by decide)

/-- The admin-notification loop only appends notification rows: quotes
table unchanged. -/
theorem notifyAdminsQuote_quotes (db : DB) (t m l : String) :
    (notifyAdminsQuote db t m l).quotes = db.quotes := by
  unfold notifyAdminsQuote
  generalize db.users.filter (fun u => u.role = .admin) = us
  induction us generalizing db with
  | nil => rfl
  | cons a tl ih => exact ih (createNotification db a.id .quote t m l)

/-- The admin-notification loop only appends notification rows: bookings
table unchanged. -/
theorem notifyAdminsQuote_bookings (db : DB) (t m l : String) :
    (notifyAdminsQuote db t m l).bookings = db.bookings := by
  unfold notifyAdminsQuote
  generalize db.users.filter (fun u => u.role = .admin) = us
  induction us generalizing db with
  | nil => rfl
  | cons a tl ih => exact ih (createNotification db a.id .quote t m l)


/-- Reduce an if whose boolean condition is known true. -/
theorem ite_bool_true {α : Sort 1} {c : Bool} {a b : α} (h : c = true) :
    (if c = true then a else b) = a := by rw [h]; simp

/-- Reduce an if whose boolean condition is known false. -/
theorem ite_bool_false {α : Sort 1} {c : Bool} {a b : α} (h : c = false) :
    (if c = true then a else b) = b := by rw [h]; simp

/-- State facts extracted from a successful quote submission: the gate
conditions that held, the inserted row, and how the booking row looks
afterwards (status bumped to quoted exactly when it was pending_quote). -/
theorem submitQuote_ok_state (db : DB) (providerId : Nat) (role : Role)
    (booking_id : Option Nat) (amount : Option Int) (driver_id vehicle_id : Option Nat)
    (notes : Option String) (id1 : Nat) (db1 : DB) (qid : Nat)
    (h : submitQuote db providerId role booking_id amount driver_id vehicle_id notes id1
        = .ok (db1, qid)) :
    (truthyId booking_id && truthyAmt amount) = true
    ∧ db1.quotes = db.quotes ++
        [⟨id1, booking_id.getD 0, providerId, amount.getD 0,
          driver_id, vehicle_id, notes, .pending⟩]
    ∧ ∃ b, db.bookings.find? (fun b' => b'.id == booking_id.getD 0) = some b
        ∧ db1.bookings.find? (fun b' => b'.id == booking_id.getD 0)
            = some (if b.status = .pending_quote then { b with status := BStatus.quoted } else b)
        ∧ ((role = .escort
              ∧ (truthyId booking_id && truthyAmt amount && truthyId vehicle_id
                  && truthyStr notes) = true
              ∧ b.requires_escort = true ∧ b.escort_id.isSome = false)
          ∨ (role = .carrier
              ∧ (truthyId booking_id && truthyAmt amount && truthyId driver_id
                  && truthyId vehicle_id && truthyStr notes) = true
              ∧ b.carrier_id.isSome = false)) := by
  unfold submitQuote at h
  obtain ⟨g1, hT⟩ : ∃ g, (truthyId booking_id && truthyAmt amount) = g := ⟨_, rfl⟩
  cases g1 with
  | false =>
    rw [ite_bool_true (show (!(truthyId booking_id && truthyAmt amount)) = true by
      rw [hT]; rfl)] at h
    cases h
  | true =>
  rw [ite_bool_false (show (!(truthyId booking_id && truthyAmt amount)) = false by
    rw [hT]; rfl)] at h
  dsimp only at h
  obtain ⟨ob, hfb⟩ : ∃ ob, db.bookings.find? (fun b' => b'.id == booking_id.getD 0) = ob :=
    ⟨_, rfl⟩
  cases ob with
  | none => rw [hfb] at h; cases h
  | some b =>
  rw [hfb] at h
  simp only at h
  refine ⟨hT, ?_⟩
  have main : ∀ (hbr : (role = .escort
          ∧ (truthyId booking_id && truthyAmt amount && truthyId vehicle_id
              && truthyStr notes) = true
          ∧ b.requires_escort = true ∧ b.escort_id.isSome = false)
        ∨ (role = .carrier
          ∧ (truthyId booking_id && truthyAmt amount && truthyId driver_id
              && truthyId vehicle_id && truthyStr notes) = true
          ∧ b.carrier_id.isSome = false)),
      submitQuoteInsert db providerId role (booking_id.getD 0) (amount.getD 0)
        driver_id vehicle_id notes b.status b.cargo_type b.pickup_city b.pickup_state id1
        = .ok (db1, qid) →
      db1.quotes = db.quotes ++
        [⟨id1, booking_id.getD 0, providerId, amount.getD 0,
          driver_id, vehicle_id, notes, .pending⟩]
      ∧ ∃ b2, db.bookings.find? (fun b' => b'.id == booking_id.getD 0) = some b2
          ∧ db1.bookings.find? (fun b' => b'.id == booking_id.getD 0)
              = some (if b2.status = .pending_quote
                  then { b2 with status := BStatus.quoted } else b2)
          ∧ ((role = .escort
                ∧ (truthyId booking_id && truthyAmt amount && truthyId vehicle_id
                    && truthyStr notes) = true
                ∧ b2.requires_escort = true ∧ b2.escort_id.isSome = false)
            ∨ (role = .carrier
                ∧ (truthyId booking_id && truthyAmt amount && truthyId driver_id
                    && truthyId vehicle_id && truthyStr notes) = true
                ∧ b2.carrier_id.isSome = false)) := by
    intro hbr hins
    unfold submitQuoteInsert at hins
    obtain ⟨gd, hdup⟩ : ∃ g, (db.quotes.any
        (fun q => q.booking_id == booking_id.getD 0 && q.provider_id == providerId)) = g :=
      ⟨_, rfl⟩
    cases gd with
    | true => rw [ite_bool_true hdup] at hins; cases hins
    | false =>
    rw [ite_bool_false hdup] at hins
    cases hins
    refine ⟨?_, b, hfb, ?_, hbr⟩
    · rw [notifyAdminsQuote_quotes]
      by_cases hst : b.status = .pending_quote <;> simp [hst]
    · rw [notifyAdminsQuote_bookings]
      by_cases hst : b.status = .pending_quote
      · simp only [if_pos hst]
        rw [find?_map_of_pred_comm (fun b' : Booking =>
            if b'.id == booking_id.getD 0 then { b' with status := BStatus.quoted } else b')
          (fun b' : Booking => b'.id == booking_id.getD 0)
          (by intro a; by_cases ha : (a.id == booking_id.getD 0) = true <;> simp [ha])
          db.bookings]
        rw [hfb]
        have hbp : b.id = booking_id.getD 0 := by simpa using List.find?_some hfb
        simp [hbp]
      · simp only [if_neg hst]
        exact hfb
  cases role with
  | escort =>
    rw [if_pos rfl] at h
    obtain ⟨g2, hF⟩ : ∃ g, (truthyId booking_id && truthyAmt amount
        && truthyId vehicle_id && truthyStr notes) = g := ⟨_, rfl⟩
    cases g2 with
    | false =>
      rw [ite_bool_true (show (!(truthyId booking_id && truthyAmt amount
        && truthyId vehicle_id && truthyStr notes)) = true by rw [hF]; rfl)] at h
      cases h
    | true =>
    rw [ite_bool_false (show (!(truthyId booking_id && truthyAmt amount
      && truthyId vehicle_id && truthyStr notes)) = false by rw [hF]; rfl)] at h
    obtain ⟨g3, hre⟩ : ∃ g, b.requires_escort = g := ⟨_, rfl⟩
    cases g3 with
    | false =>
      rw [ite_bool_true (show (!b.requires_escort) = true by rw [hre]; rfl)] at h
      cases h
    | true =>
    rw [ite_bool_false (show (!b.requires_escort) = false by rw [hre]; rfl)] at h
    obtain ⟨g4, hei⟩ : ∃ g, b.escort_id.isSome = g := ⟨_, rfl⟩
    cases g4 with
    | true => rw [ite_bool_true hei] at h; cases h
    | false =>
    rw [ite_bool_false hei] at h
    exact main (Or.inl ⟨rfl, hF, hre, hei⟩) h
  | carrier =>
    rw [if_neg (by decide), if_pos rfl] at h
    obtain ⟨g2, hF⟩ : ∃ g, (truthyId booking_id && truthyAmt amount && truthyId driver_id
        && truthyId vehicle_id && truthyStr notes) = g := ⟨_, rfl⟩
    cases g2 with
    | false =>
      rw [ite_bool_true (show (!(truthyId booking_id && truthyAmt amount
        && truthyId driver_id && truthyId vehicle_id && truthyStr notes)) = true by
          rw [hF]; rfl)] at h
      cases h
    | true =>
    rw [ite_bool_false (show (!(truthyId booking_id && truthyAmt amount
      && truthyId driver_id && truthyId vehicle_id && truthyStr notes)) = false by
        rw [hF]; rfl)] at h
    obtain ⟨g3, hci⟩ : ∃ g, b.carrier_id.isSome = g := ⟨_, rfl⟩
    cases g3 with
    | true => rw [ite_bool_true hci] at h; cases h
    | false =>
    rw [ite_bool_false hci] at h
    exact main (Or.inr ⟨rfl, hF, hci⟩) h
  | shipper => rw [if_neg (by decide), if_neg (by decide)] at h; cases h
  | driver => rw [if_neg (by decide), if_neg (by decide)] at h; cases h
  | admin => rw [if_neg (by decide), if_neg (by decide)] at h; cases h

/-- C6: at most one quote per (booking, provider): after a provider's
successful submitQuote for a booking, any second submitQuote by the same
provider for the same booking — with any well-formed field values — fails
with the duplicate-quote ConflictError, and, being an error, inserts
nothing (error results carry no state). -/
theorem submit_quote_unique_c6 (db : DB) (providerId : Nat) (role : Role)
    (booking_id : Option Nat) (amount amount2 : Option Int)
    (driver_id vehicle_id d2 v2 : Option Nat) (notes n2 : Option String)
    (id1 id2 : Nat) (db1 : DB) (qid : Nat)
    (h : submitQuote db providerId role booking_id amount driver_id vehicle_id notes id1
        = .ok (db1, qid))
    (hT2 : (truthyId booking_id && truthyAmt amount2) = true)
    (hF2e : role = .escort →
      (truthyId booking_id && truthyAmt amount2 && truthyId v2 && truthyStr n2) = true)
    (hF2c : role = .carrier →
      (truthyId booking_id && truthyAmt amount2 && truthyId d2 && truthyId v2
        && truthyStr n2) = true) :
    submitQuote db1 providerId role booking_id amount2 d2 v2 n2 id2
      = .error .conflict := by
  obtain ⟨hT, hq1, b, hfb, hfb1, hbr⟩ := submitQuote_ok_state db providerId role
    booking_id amount driver_id vehicle_id notes id1 db1 qid h
  have hreq : (if b.status = .pending_quote then { b with status := BStatus.quoted }
      else b).requires_escort = b.requires_escort := by
    by_cases hst : b.status = .pending_quote <;> simp [hst]
  have hesc : (if b.status = .pending_quote then { b with status := BStatus.quoted }
      else b).escort_id = b.escort_id := by
    by_cases hst : b.status = .pending_quote <;> simp [hst]
  have hcar : (if b.status = .pending_quote then { b with status := BStatus.quoted }
      else b).carrier_id = b.carrier_id := by
    by_cases hst : b.status = .pending_quote <;> simp [hst]
  have hdup2 : (db1.quotes.any
      (fun q => q.booking_id == booking_id.getD 0 && q.provider_id == providerId)) = true := by
    rw [hq1]
    simp
  unfold submitQuote
  rw [ite_bool_false (show (!(truthyId booking_id && truthyAmt amount2)) = false by
    rw [hT2]; rfl)]
  dsimp only
  rw [hfb1]
  simp only
  cases role with
  | escort =>
    rcases hbr with ⟨_, _, hre, hei⟩ | ⟨hrole, _, _⟩
    · rw [if_pos rfl]
      rw [ite_bool_false (show (!(truthyId booking_id && truthyAmt amount2
        && truthyId v2 && truthyStr n2)) = false by rw [hF2e rfl]; rfl)]
      rw [ite_bool_false (show (!(if b.status = .pending_quote
          then { b with status := BStatus.quoted } else b).requires_escort) = false by
        rw [hreq, hre]; rfl)]
      rw [ite_bool_false (show (if b.status = .pending_quote
          then { b with status := BStatus.quoted } else b).escort_id.isSome = false by
        rw [hesc, hei])]
      unfold submitQuoteInsert
      rw [ite_bool_true hdup2]
    · cases hrole
  | carrier =>
    rcases hbr with ⟨hrole, _, _⟩ | ⟨_, _, hci⟩
    · cases hrole
    · rw [if_neg (by decide), if_pos rfl]
      rw [ite_bool_false (show (!(truthyId booking_id && truthyAmt amount2
        && truthyId d2 && truthyId v2 && truthyStr n2)) = false by rw [hF2c rfl]; rfl)]
      rw [ite_bool_false (show (if b.status = .pending_quote
          then { b with status := BStatus.quoted } else b).carrier_id.isSome = false by
        rw [hcar, hci])]
      unfold submitQuoteInsert
      rw [ite_bool_true hdup2]
  | shipper => rcases hbr with ⟨hrole, _⟩ | ⟨hrole, _⟩ <;> cases hrole
  | driver => rcases hbr with ⟨hrole, _⟩ | ⟨hrole, _⟩ <;> cases hrole
  | admin => rcases hbr with ⟨hrole, _⟩ | ⟨hrole, _⟩ <;> cases hrole

/-- C6 witness: escort 5 submits a quote on booking 10 of dbMain; the
submission succeeds, and resubmitting the same request under a fresh quote
id fails with the conflict error. -/
theorem submit_quote_unique_c6_witness :
    ∃ d q, submitQuote dbMain 5 .escort (some 10) (some 800) none (some 9) (some "ok") 30
        = .ok (d, q)
      ∧ submitQuote d 5 .escort (some 10) (some 800) none (some 9) (some "ok") 31
          = .error .conflict := by
  cases hv : submitQuote dbMain 5 .escort (some 10) (some 800) none (some 9) (some "ok") 30 with
  | ok p =>
    obtain ⟨d, q⟩ := p
    exact ⟨d, q, rfl, submit_quote_unique_c6 dbMain 5 .escort (some 10) (some 800) (some 800)
      none (some 9) none (some 9) (some "ok") (some "ok") 30 31 d q hv (by decide)
      (fun _ => by decide) (by intro hr; cases hr)⟩
  | error e =>
    have hok : (submitQuote dbMain 5 .escort (some 10) (some 800) none (some 9)
        (some "ok") 30).isOk = true := by decide
    rw [hv] at hok
    simp [Except.isOk, Except.toBool] at hok


/-- C7: the booking update and delete routes succeed exactly when the row
exists with the caller as owning shipper and no quote references the
booking; a missing or foreign booking yields the conflated
notFoundOrUnauthorized response for both routes, and an owned booking with
at least one quote yields the conflict response for both; every failure is
an error result, which carries no state, so the booking row is unchanged
and not deleted. -/
theorem booking_update_delete_gates_c7 (db : DB) (callerId bookingId : Nat)
    (f : BookingUpdate) :
    ((deleteBooking db callerId bookingId).isOk = true ↔
      ((db.bookings.find? (fun b => b.id == bookingId && b.shipper_id == callerId)).isSome
          = true
        ∧ db.quotes.any (fun q => q.booking_id == bookingId) = false))
    ∧ ((updateBooking db callerId bookingId f).isOk = true ↔
      ((db.bookings.find? (fun b => b.id == bookingId && b.shipper_id == callerId)).isSome
          = true
        ∧ db.quotes.any (fun q => q.booking_id == bookingId) = false))
    ∧ ((db.bookings.find? (fun b => b.id == bookingId && b.shipper_id == callerId)) = none →
        deleteBooking db callerId bookingId = .error .notFoundOrUnauthorized
        ∧ updateBooking db callerId bookingId f = .error .notFoundOrUnauthorized)
    ∧ ((db.bookings.find? (fun b => b.id == bookingId && b.shipper_id == callerId)).isSome
          = true →
        db.quotes.any (fun q => q.booking_id == bookingId) = true →
        deleteBooking db callerId bookingId = .error .conflict
        ∧ updateBooking db callerId bookingId f = .error .conflict) := by
  unfold deleteBooking updateBooking
  cases hfb : db.bookings.find? (fun b => b.id == bookingId && b.shipper_id == callerId) with
  | none => simp [hfb, Except.isOk, Except.toBool]
  | some b =>
    cases hq : db.quotes.any (fun q => q.booking_id == bookingId) with
    | false => simp [hq, Except.isOk, Except.toBool]
    | true => simp [hq, Except.isOk, Except.toBool]

/-- C7 witness: at dbMain, shipper 3 can delete the quoteless booking 12;
the same caller gets the conflict error on the quoted booking 10; carrier 1
gets the conflated notFoundOrUnauthorized on booking 12; and a nonexistent
booking 99 also yields notFoundOrUnauthorized. -/
theorem booking_update_delete_gates_c7_witness :
    (deleteBooking dbMain 3 12).isOk = true
    ∧ updateBooking dbMain 3 10 bookingUpdate0 = .error .conflict
    ∧ deleteBooking dbMain 1 12 = .error .notFoundOrUnauthorized
    ∧ updateBooking dbMain 3 99 bookingUpdate0 = .error .notFoundOrUnauthorized :=
  ⟨(booking_update_delete_gates_c7 dbMain 3 12 bookingUpdate0).1.mpr
      ⟨by decide, by decide⟩,
    ((booking_update_delete_gates_c7 dbMain 3 10 bookingUpdate0).2.2.2
      (by decide) (by decide)).2,
    ((booking_update_delete_gates_c7 dbMain 1 12 bookingUpdate0).2.2.1 (by decide)).1,
    ((booking_update_delete_gates_c7 dbMain 3 99 bookingUpdate0).2.2.1 (by decide)).2⟩


/-- find? over a list extended by one matching element, when nothing in the
prefix matches. -/
theorem find?_append_singleton {α : Type} (l : List α) (x : α) (p : α → Bool)
    (hl : l.find? p = none) (hx : p x = true) : (l ++ [x]).find? p = some x := by
  rw [List.find?_append, hl]
  simp [List.find?_cons, hx]

/-- Facts after a successful conversation lookup-or-create: a conversation
row carrying the returned id and the requested booking key exists, and the
conversations table either stayed unchanged or gained exactly the fresh
row; the bookings table is untouched. -/
theorem getOrCreate_ok_facts (db : DB) (u p n : Nat) (bid : Option Nat)
    (db1 : DB) (i : Nat)
    (h : getOrCreateConversation db u p bid n = .ok (db1, i)) :
    (∃ c ∈ db1.conversations, c.id = i ∧ c.booking_id = bid)
    ∧ (db1.conversations = db.conversations
        ∨ db1.conversations = db.conversations ++ [⟨n, bid⟩])
    ∧ db1.bookings = db.bookings := by
  unfold getOrCreateConversation at h
  obtain ⟨g, hbv⟩ : ∃ g, bookingOkCheck db bid = g := ⟨_, rfl⟩
  cases g with
  | false => rw [ite_bool_true (show _ = true by rw [hbv]; rfl)] at h; cases h
  | true =>
  rw [ite_bool_false (show _ = false by rw [hbv]; rfl)] at h
  obtain ⟨oc, hfind⟩ : ∃ oc, db.conversations.find? (fun c =>
      c.booking_id == bid && hasParticipant db c.id u
        && hasParticipant db c.id p) = oc := ⟨_, rfl⟩
  cases oc with
  | some c =>
    rw [hfind] at h
    cases h
    have hpred := List.find?_some hfind
    simp only [Bool.and_eq_true, beq_iff_eq] at hpred
    exact ⟨⟨c, List.mem_of_find?_eq_some hfind, rfl, hpred.1.1⟩, Or.inl rfl, rfl⟩
  | none =>
    rw [hfind] at h
    cases h
    exact ⟨⟨⟨n, bid⟩, by simp [convInsert], rfl, rfl⟩, Or.inr rfl, rfl⟩

/-- The participant rows of a freshly inserted conversation do not affect
participancy checks for any other conversation id. -/
theorem hasParticipant_convInsert_old (db : DB) (u p n1 : Nat) (bid : Option Nat)
    (cid x : Nat) (hne : cid ≠ n1) :
    hasParticipant (convInsert db u p n1 bid) cid x = hasParticipant db cid x := by
  unfold hasParticipant convInsert
  simp only [List.any_append]
  simp [Ne.symm hne]

/-- The creating user is a participant of the freshly inserted conversation. -/
theorem hasParticipant_convInsert_self_u (db : DB) (u p n1 : Nat) (bid : Option Nat) :
    hasParticipant (convInsert db u p n1 bid) n1 u = true := by
  unfold hasParticipant convInsert
  simp

/-- The other party is a participant of the freshly inserted conversation. -/
theorem hasParticipant_convInsert_self_p (db : DB) (u p n1 : Nat) (bid : Option Nat) :
    hasParticipant (convInsert db u p n1 bid) n1 p = true := by
  unfold hasParticipant convInsert
  simp

/-- After a conversation was created because the lookup found nothing, an
identical lookup-or-create call finds exactly the created conversation and
returns its id with the state unchanged. -/
theorem getOrCreate_created_idem (db : DB) (u p n1 n2 : Nat) (bid : Option Nat)
    (hbv : bookingOkCheck db bid = true)
    (hfind : db.conversations.find? (fun c =>
        c.booking_id == bid && hasParticipant db c.id u
          && hasParticipant db c.id p) = none)
    (hf1 : ∀ c ∈ db.conversations, c.id ≠ n1) :
    getOrCreateConversation (convInsert db u p n1 bid) u p bid n2
      = .ok (convInsert db u p n1 bid, n1) := by
  unfold getOrCreateConversation
  have hb2 : bookingOkCheck (convInsert db u p n1 bid) bid = true := hbv
  rw [ite_bool_false (show _ = false by rw [hb2]; rfl)]
  have hfind2 : (convInsert db u p n1 bid).conversations.find? (fun c =>
      c.booking_id == bid && hasParticipant (convInsert db u p n1 bid) c.id u
        && hasParticipant (convInsert db u p n1 bid) c.id p) = some ⟨n1, bid⟩ := by
    have hcs : (convInsert db u p n1 bid).conversations
        = db.conversations ++ [⟨n1, bid⟩] := rfl
    rw [hcs]
    apply find?_append_singleton
    · rw [List.find?_eq_none]
      intro c hc
      have hO := List.find?_eq_none.mp hfind c hc
      have hne := hf1 c hc
      rw [hasParticipant_convInsert_old db u p n1 bid c.id u hne,
          hasParticipant_convInsert_old db u p n1 bid c.id p hne]
      exact hO
    · simp only [hasParticipant_convInsert_self_u, hasParticipant_convInsert_self_p]
      simp
  rw [hfind2]

/-- C9: the conversation key is the participant pair plus the optional
booking. First conjunct: calling getOrCreateConversation twice with the
same pair and booking returns the same conversation id both times and the
second call changes nothing. Second conjunct: two calls with the same pair
but different booking keys (null against non-null included) return distinct
conversation ids. Fresh-uuid arguments and the primary-key uniqueness of
conversation ids are the hypotheses. -/
theorem conversation_key_c9 (db : DB) (u p n1 n2 : Nat) (bid bid2 : Option Nat)
    (hnd : (db.conversations.map Conversation.id).Nodup)
    (hf1 : ∀ c ∈ db.conversations, c.id ≠ n1)
    (hf2 : ∀ c ∈ db.conversations, c.id ≠ n2)
    (h12 : n1 ≠ n2) :
    (∀ db1 i1, getOrCreateConversation db u p bid n1 = .ok (db1, i1) →
      getOrCreateConversation db1 u p bid n2 = .ok (db1, i1))
    ∧ (∀ db1 i1 db2 i2, bid ≠ bid2 →
        getOrCreateConversation db u p bid n1 = .ok (db1, i1) →
        getOrCreateConversation db1 u p bid2 n2 = .ok (db2, i2) →
        i1 ≠ i2) := by
  constructor
  · intro db1 i1 h
    unfold getOrCreateConversation at h
    obtain ⟨g, hbv⟩ : ∃ g, bookingOkCheck db bid = g := ⟨_, rfl⟩
    cases g with
    | false => rw [ite_bool_true (show _ = true by rw [hbv]; rfl)] at h; cases h
    | true =>
    rw [ite_bool_false (show _ = false by rw [hbv]; rfl)] at h
    obtain ⟨oc, hfind⟩ : ∃ oc, db.conversations.find? (fun c =>
        c.booking_id == bid && hasParticipant db c.id u
          && hasParticipant db c.id p) = oc := ⟨_, rfl⟩
    cases oc with
    | some c =>
      rw [hfind] at h
      cases h
      unfold getOrCreateConversation
      rw [ite_bool_false (show _ = false by rw [hbv]; rfl)]
      rw [hfind]
    | none =>
      rw [hfind] at h
      cases h
      exact getOrCreate_created_idem db u p n1 n2 bid hbv hfind hf1
  · intro db1 i1 db2 i2 hneq h1 h2 hii
    obtain ⟨⟨c1, hc1m, hc1i, hc1b⟩, hconv1, _⟩ :=
      getOrCreate_ok_facts db u p n1 bid db1 i1 h1
    obtain ⟨⟨c2, hc2m, hc2i, hc2b⟩, hconv2, _⟩ :=
      getOrCreate_ok_facts db1 u p n2 bid2 db2 i2 h2
    have hsub1 : ∀ c ∈ db1.conversations, c ∈ db.conversations ∨ c = ⟨n1, bid⟩ := by
      cases hconv1 with
      | inl he => exact fun c hc => Or.inl (he ▸ hc)
      | inr he =>
        intro c hc
        rcases List.mem_append.mp (he ▸ hc) with hx | hx
        · exact Or.inl hx
        · exact Or.inr (List.mem_singleton.mp hx)
    have hid_ne_n2 : ∀ c ∈ db1.conversations, c.id ≠ n2 := by
      intro c hc
      rcases hsub1 c hc with hx | hx
      · exact hf2 c hx
      · rw [hx]; exact h12
    have hnd1 : (db1.conversations.map Conversation.id).Nodup := by
      cases hconv1 with
      | inl he => rw [he]; exact hnd
      | inr he =>
        rw [he, List.map_append]
        refine List.Nodup.append hnd (by simp) ?_
        intro a ha hb
        simp only [List.map_cons, List.map_nil, List.mem_singleton] at hb
        obtain ⟨c, hcm, hcid⟩ := List.mem_map.mp ha
        exact hf1 c hcm (hcid.trans hb)
    have hc2' : c2 ∈ db1.conversations ∨ c2 = ⟨n2, bid2⟩ := by
      cases hconv2 with
      | inl he => exact Or.inl (he ▸ hc2m)
      | inr he =>
        rcases List.mem_append.mp (he ▸ hc2m) with hx | hx
        · exact Or.inl hx
        · exact Or.inr (List.mem_singleton.mp hx)
    rcases hc2' with hin | hnew
    · have hcc : c1 = c2 :=
        List.inj_on_of_nodup_map hnd1 hc1m hin (by rw [hc1i, hc2i, hii])
      exact hneq (by rw [← hc1b, hcc, hc2b])
    · have hi2 : i2 = n2 := by rw [← hc2i, hnew]
      exact hid_ne_n2 c1 hc1m (by rw [hc1i, hii, hi2])



/-- C9 witness: the key theorem at the concrete scenario — repeating the
general-conversation call for the pair (3, 1) returns conversation 40 again
and changes nothing, and the same pair with booking 10 as key yields a
conversation distinct from 40. -/
theorem conversation_key_c9_witness :
    getOrCreateConversation dbConv1 3 1 none 41 = .ok (dbConv1, 40)
    ∧ (40 : Nat) ≠ 41 :=
  ⟨(conversation_key_c9 dbMain 3 1 40 41 none none (by decide) (by decide)
      (by decide) (by decide)).1 dbConv1 40 rfl,
    (conversation_key_c9 dbMain 3 1 40 41 none (some 10) (by decide) (by decide)
      (by decide) (by decide)).2 dbConv1 40 dbConv2 41 (by decide) rfl rfl⟩
